import Mathlib

/-!
Shallow embedding of the gpt-5-pro-mcp tool-calling core.

Sources embedded here:
* `src/internal/client/gpt5pro.go` — the stateful (Responses API) variant:
  `GPT5ProClient.Handle`, `extractToolCalls`, `extractTextContent`,
  `buildSystemPrompt`.
* `src/unnamed/part_000` — the stateless (Chat Completions) variant:
  `ChatCompletionsClient.Handle`.
* `src/unnamed/part_001` — the context scanner:
  `AnalyzePromptForReferences`, `BuildContextRequest`,
  `EnrichPromptWithContext`, `FormatContextRequestAsText`, `isCommonWord`.

Modelling conventions:
* External collaborators are parameters: the HTTP provider is a function
  from the request index and the request input to `Except String` of a
  response; the tool executor (`executeFunction`, which delegates to the
  `FileOps` collaborator) is a function from name and argument JSON to
  `Except String String`; the JSON decoder used by
  `EnrichPromptWithContext` (`encoding/json.Unmarshal`) is a parameter
  `parse`.
* Go strings are Lean `String`s; Go slices are Lean `List`s; Go maps that
  the code iterates over are insertion-ordered association lists (the
  claims under study only exercise maps with at most one entry, where Go's
  randomized iteration order is irrelevant).
* An `mcp.CallToolResult` is a pair of an error flag and the text
  (`mcp.NewToolResultText` / `mcp.NewToolResultError`).
* Each `Handle` returns, besides the tool result, the value its session
  field (`c.responseID` resp. `c.conversationHistory`) holds on return and
  the number of provider requests it performed.
-/

namespace GPT5ProMCP

/-- Constant `maxIterations` from gpt5pro.go line 27. -/
def maxIterations : Nat := 10

/-- Model of `mcp.CallToolResult`: an error flag plus the text payload. -/
structure CallToolResult where
  isError : Bool
  text : String
deriving DecidableEq

/-- Model of `mcp.NewToolResultText`. -/
def NewToolResultText (t : String) : CallToolResult := ⟨false, t⟩

/-- Model of `mcp.NewToolResultError`. -/
def NewToolResultError (t : String) : CallToolResult := ⟨true, t⟩

/-! Responses-API data model (gpt5pro.go). -/

/-- Content part of a Responses-API output item (`type` and `text` are the
only fields the code reads). -/
structure ResponseContentItem where
  type : String
  text : String
deriving DecidableEq

/-- Output item of a Responses-API response (the fields read by
`extractToolCalls` and `extractTextContent`). -/
structure ResponseOutputItem where
  type : String
  callID : String
  name : String
  arguments : String
  content : List ResponseContentItem
deriving DecidableEq

/-- Model of `responses.Response`: its id and output list. -/
structure Response where
  id : String
  output : List ResponseOutputItem
deriving DecidableEq

/-- Model of the `ToolCall` struct of gpt5pro.go lines 318-322. -/
structure ToolCall where
  id : String
  name : String
  arguments : String
deriving DecidableEq

/-- Model of `extractToolCalls` (gpt5pro.go lines 325-342): collect every
output item of type "function_call", in order. -/
def extractToolCalls (response : Response) : List ToolCall :=
  (response.output.filter (fun item => item.type == "function_call")).map
    (fun item => { id := item.callID, name := item.name, arguments := item.arguments })

/-- Model of `extractTextContent` (gpt5pro.go lines 344-373): gather the
text of each "text"/"output_text" content part of each "message" item,
then join the parts with newlines exactly as the final loop does. -/
def extractTextContent (response : Response) : String :=
  let textParts := response.output.foldl
    (fun acc item =>
      if item.type == "message" then
        acc ++ (item.content.foldl
          (fun acc2 c =>
            if c.type == "text" || c.type == "output_text" then acc2 ++ [c.text] else acc2)
          [])
      else acc)
    []
  textParts.foldl (fun result part => if result == "" then part else result ++ "\n" ++ part) ""

/-- Input item of a Responses-API request: either the user message added at
gpt5pro.go line 151 or a function-call output added at line 218. -/
inductive RespInputItem where
  | message (content : String) (role : String)
  | functionCallOutput (callID : String) (output : String)
deriving DecidableEq

/-- Model of `responses.ResponseInputItemParamOfMessage`. -/
def ResponseInputItemParamOfMessage (content role : String) : RespInputItem :=
  .message content role

/-- Model of `responses.ResponseInputItemParamOfFunctionCallOutput`. -/
def ResponseInputItemParamOfFunctionCallOutput (callID output : String) : RespInputItem :=
  .functionCallOutput callID output

/-- CallID carried by an input item (empty for a user message). -/
def respInputItemCallID : RespInputItem → String
  | .message _ _ => ""
  | .functionCallOutput callID _ => callID

/-- Result string fed back to the model for one tool call: gpt5pro.go lines
210-216 and part_000 lines 152-158 convert an executor error into the text
"Error: ..." instead of aborting. -/
def execResultString (executeFunction : String → String → Except String String)
    (name arguments : String) : String :=
  match executeFunction name arguments with
  | .ok result => result
  | .error e => "Error: " ++ e

/-- Model of the tool-output collection loop of gpt5pro.go lines 207-219:
one function-call-output input item per tool call, in order, id copied from
the call. -/
def respCollectToolOutputs (executeFunction : String → String → Except String String)
    (toolCalls : List ToolCall) : List RespInputItem :=
  toolCalls.map (fun tc =>
    ResponseInputItemParamOfFunctionCallOutput tc.id
      (execResultString executeFunction tc.name tc.arguments))

/-- Remediation note appended for OpenRouter users, gpt5pro.go lines
170-179 (the text after the "API error: %v\n\n" prefix). -/
def compatNote : String :=
  "COMPATIBILITY NOTE: This MCP server uses OpenAI\x27s Responses API (/v1/responses) which is NOT supported by OpenRouter.\n" ++
  "OpenRouter only supports the Chat Completions API (/v1/chat/completions).\n\n" ++
  "Solutions:\n" ++
  "1. Use OpenAI API directly (set OPENAI_API_KEY instead of OPENROUTER_API_KEY)\n" ++
  "2. Wait for a future version with Chat Completions support\n" ++
  "3. Use a provider that supports the Responses API"

/-- Error text returned when the initial Responses-API call fails,
gpt5pro.go lines 165-183: the remediation note is appended exactly when a
custom base URL is configured. -/
def respInitialErrorText (baseURL e : String) : String :=
  if baseURL ≠ "" then "API error: " ++ e ++ "\n\n" ++ compatNote
  else "OpenAI API error: " ++ e

/-- Outcome of `GPT5ProClient.Handle`: the tool result, the value of the
`c.responseID` session field on return, and how many provider requests
were made. -/
structure RespOutcome where
  result : CallToolResult
  responseID : String
  requests : Nat
deriving DecidableEq

/-- Model of the tool-call loop of `GPT5ProClient.Handle`, gpt5pro.go lines
190-241. `fuel` is the remaining iteration budget (starts at
`maxIterations`), `reqs` the number of provider requests already made,
`response` the current response and `rid` the current value of
`c.responseID` (updated to each new response id at lines 186 and 239).
Note the follow-up error path (lines 233-236) returns a plain
"OpenAI API error" text with no base-URL remediation note. -/
def respIter (executeFunction : String → String → Except String String)
    (provider : Nat → List RespInputItem → Except String Response) :
    Nat → Nat → Response → String → RespOutcome
  | 0, reqs, _response, rid =>
    { result := NewToolResultError "Max function call iterations reached",
      responseID := rid, requests := reqs }
  | fuel+1, reqs, response, rid =>
    match extractToolCalls response with
    | [] =>
      let text := extractTextContent response
      if text = "" then
        { result := NewToolResultError "No text content in response",
          responseID := rid, requests := reqs }
      else
        { result := NewToolResultText text, responseID := rid, requests := reqs }
    | _ :: _ =>
      let toolOutputs := respCollectToolOutputs executeFunction (extractToolCalls response)
      match provider reqs toolOutputs with
      | .error e =>
        { result := NewToolResultError ("OpenAI API error: " ++ e),
          responseID := rid, requests := reqs + 1 }
      | .ok response2 =>
        respIter executeFunction provider fuel (reqs + 1) response2 response2.id

/-- Model of the provider round-trip part of `GPT5ProClient.Handle`
(gpt5pro.go lines 131-244): reset the continuation token when
`continue=false`, make the initial request carrying the user message, then
run the bounded loop. The token is set to the response id (line 186)
before the loop inspects the response. -/
def respHandleCore (executeFunction : String → String → Except String String)
    (provider : Nat → List RespInputItem → Except String Response)
    (baseURL responseID0 : String) (continueConversation : Bool) (prompt : String) :
    RespOutcome :=
  let rid1 := if continueConversation then responseID0 else ""
  match provider 0 [ResponseInputItemParamOfMessage prompt "user"] with
  | .error e =>
    { result := NewToolResultError (respInitialErrorText baseURL e),
      responseID := rid1, requests := 1 }
  | .ok response =>
    respIter executeFunction provider maxIterations 1 response response.id

/-! Chat-Completions data model (part_000). -/

/-- Function part of a chat tool call (`toolCall.Function`). -/
structure ChatToolCallFunction where
  name : String
  arguments : String
deriving DecidableEq

/-- Model of a chat completion tool call (`toolCall.ID`,
`toolCall.Function`). -/
structure ChatToolCall where
  id : String
  function : ChatToolCallFunction
deriving DecidableEq

/-- Model of a chat completion message: content plus requested tool
calls. -/
structure ChatCompletionMessage where
  content : String
  toolCalls : List ChatToolCall
deriving DecidableEq

/-- Model of a chat completion choice. -/
structure ChatChoice where
  message : ChatCompletionMessage
deriving DecidableEq

/-- Model of a chat completion response. -/
structure ChatCompletion where
  choices : List ChatChoice
deriving DecidableEq

/-- Model of `openai.ChatCompletionMessageParamUnion`: the assistant
variant can carry tool calls (the library supports attaching them), the
others cannot. -/
inductive ChatMsg where
  | system (content : String)
  | user (content : String)
  | assistant (content : String) (toolCalls : List ChatToolCall)
  | tool (toolCallID : String) (content : String)
deriving DecidableEq

/-- Model of `openai.SystemMessage`. -/
def SystemMessage (content : String) : ChatMsg := .system content

/-- Model of `openai.UserMessage`. -/
def UserMessage (content : String) : ChatMsg := .user content

/-- Model of `openai.AssistantMessage` as called at part_000 line 133: only
the content is set, the tool-call list of the stored turn is left empty. -/
def AssistantMessage (content : String) : ChatMsg := .assistant content []

/-- Model of `openai.ToolMessage` as called at part_000 line 161. -/
def ToolMessage (toolCallID content : String) : ChatMsg := .tool toolCallID content

/-- Tool-result turns appended for one round of chat tool calls, part_000
lines 149-162: one tool message per call, in order, id copied from the
call, executor errors converted to "Error: ..." text. -/
def chatToolMessages (executeFunction : String → String → Except String String)
    (toolCalls : List ChatToolCall) : List ChatMsg :=
  toolCalls.map (fun tc =>
    ToolMessage tc.id (execResultString executeFunction tc.function.name tc.function.arguments))

/-- Outcome of `ChatCompletionsClient.Handle`: the tool result, the value
of `c.conversationHistory` on return, and the number of provider
requests. -/
structure ChatOutcome where
  result : CallToolResult
  conversationHistory : List ChatMsg
  requests : Nat
deriving DecidableEq

/-- Model of the loop of `ChatCompletionsClient.Handle`, part_000 lines
108-168. `history` is the current value of the `c.conversationHistory`
field, which is overwritten with the running message list only on the
zero-tool-call success path (line 141). -/
def chatIter (executeFunction : String → String → Except String String)
    (provider : Nat → List ChatMsg → Except String ChatCompletion) :
    Nat → Nat → List ChatMsg → List ChatMsg → ChatOutcome
  | 0, reqs, _messages, history =>
    { result := NewToolResultError "Max function call iterations reached",
      conversationHistory := history, requests := reqs }
  | fuel+1, reqs, messages, history =>
    match provider reqs messages with
    | .error e =>
      { result := NewToolResultError ("Chat Completions API error: " ++ e),
        conversationHistory := history, requests := reqs + 1 }
    | .ok completion =>
      match completion.choices with
      | [] =>
        { result := NewToolResultError "No response from API",
          conversationHistory := history, requests := reqs + 1 }
      | choice :: _ =>
        let message := choice.message
        let messages2 := messages ++ [AssistantMessage message.content]
        match message.toolCalls with
        | [] =>
          { result := NewToolResultText message.content,
            conversationHistory := messages2, requests := reqs + 1 }
        | _ :: _ =>
          let messages3 := messages2 ++ chatToolMessages executeFunction message.toolCalls
          chatIter executeFunction provider fuel (reqs + 1) messages3 history

/-- Model of `buildSystemPrompt` (gpt5pro.go lines 376-412). -/
def buildSystemPrompt : String :=
  "You are a GPT-5-Pro powered assistant - an expert problem-solving AI consulted for the most challenging and complex problems.\n\n" ++
  "Your role is to provide deep, systematic analysis through multi-step reasoning:\n\n" ++
  "1. **Problem Decomposition**: Break down complex problems into manageable components\n" ++
  "2. **Hypothesis Generation**: Form clear theories about root causes or solutions\n" ++
  "3. **Evidence Gathering**: Identify what information is needed and what conclusions can be drawn\n" ++
  "4. **Systematic Investigation**: Work through problems methodically, step by step\n" ++
  "5. **Confidence Assessment**: Honestly evaluate certainty levels at each stage\n" ++
  "6. **Iterative Refinement**: Build on previous findings to reach comprehensive understanding\n\n" ++
  "When analyzing problems:\n" ++
  "- Think deeply and systematically\n" ++
  "- Question assumptions\n" ++
  "- Consider multiple perspectives\n" ++
  "- Identify gaps in understanding\n" ++
  "- Provide clear, actionable insights\n" ++
  "- Acknowledge uncertainty when appropriate\n" ++
  "- Suggest concrete next steps\n\n" ++
  "Your responses should be:\n" ++
  "- **Thorough**: Cover all relevant aspects\n" ++
  "- **Clear**: Easy to understand and act upon\n" ++
  "- **Structured**: Organized logically\n" ++
  "- **Evidence-based**: Grounded in facts and reasoning\n" ++
  "- **Actionable**: Include concrete recommendations\n\n" ++
  "**Available Tools**:\n" ++
  "You have access to the following tools to gather information:\n" ++
  "- read_file: Read the contents of any file from the filesystem\n" ++
  "- grep_files: Search for patterns in files using regex and glob patterns\n\n" ++
  "Use these tools proactively to gather evidence and verify your hypotheses. Don\x27t hesitate to read files or search codebases when it helps your analysis.\n\n" ++
  "You are being consulted because standard approaches have proven insufficient. Bring your full analytical capabilities to bear on each problem."

/-- Model of the provider round-trip part of
`ChatCompletionsClient.Handle` (part_000 lines 80-168): clear the history
when `continue=false`, seed the message list with a system turn when the
history is empty or with the history otherwise, append the user turn and
run the bounded loop. -/
def chatHandleCore (executeFunction : String → String → Except String String)
    (provider : Nat → List ChatMsg → Except String ChatCompletion)
    (history0 : List ChatMsg) (continueConversation : Bool) (prompt : String) :
    ChatOutcome :=
  let history1 := if continueConversation then history0 else []
  let messages0 := if history1 = [] then [SystemMessage buildSystemPrompt] else history1
  let messages1 := messages0 ++ [UserMessage prompt]
  chatIter executeFunction provider maxIterations 0 messages1 history1

/-! Context scanner (part_001). The Go code drives three compiled regexes
with `FindAllStringSubmatch`; here each regex is given an operational
matcher with the same leftmost, greedy-with-backtracking semantics
(Go regexp uses Perl-style leftmost-first matching), and a common driver
replays `FindAllStringSubmatch`: scan left to right, at each position try
the matcher, on success record the submatch and resume after the match,
otherwise advance one character. -/

/-- ASCII word character, the class Go regexp uses for a word boundary. -/
def isWordChar (c : Char) : Bool := c.isAlphanum || c == '_'

/-- Word-ness of an optional character; the position before the start of
the string (and after its end) counts as non-word. -/
def optIsWord : Option Char → Bool
  | none => false
  | some c => isWordChar c

/-- Go regexp word boundary between two adjacent positions. -/
def wordBoundary (a b : Option Char) : Bool := optIsWord a != optIsWord b

/-- Character class of the file-path regex
`[a-zA-Z0-9_/\-\.]+` of part_001 line 43. -/
def isFilePathChar (c : Char) : Bool :=
  c.isAlphanum || c == '_' || c == '/' || c == '-' || c == '.'

/-- Extension alternatives of the file-path regex, in the order they are
tried: `(py|js|ts|go|java|rb|php|cpp|c|h|rs|kt|swift|tsx|jsx)`. -/
def fileExtensions : List (List Char) :=
  ["py", "js", "ts", "go", "java", "rb", "php", "cpp", "c", "h", "rs", "kt",
   "swift", "tsx", "jsx"].map String.data

/-- Whitespace class of Go regexp `\s`. -/
def isGoSpace (c : Char) : Bool :=
  c == ' ' || c == '\t' || c == '\n' || c == '\r' || c == '\x0c'

/-- Extension-alternation step of the file-path regex: try each extension
in order at position `pos` of `l`; an alternative succeeds when it is a
prefix of the rest and is followed by a word boundary (extension
characters are word characters, so the boundary holds exactly when the
next character is absent or non-word). Returns the extension length. -/
def tryFileExtensions (l : List Char) (pos : Nat) : List (List Char) → Option Nat
  | [] => none
  | ext :: rest =>
    let tail := l.drop pos
    if ext.isPrefixOf tail then
      match tail.drop ext.length with
      | [] => some ext.length
      | a :: _ => if isWordChar a then tryFileExtensions l pos rest else some ext.length
    else tryFileExtensions l pos rest

/-- Backtracking step of the file-path regex: the greedy `[:class:]+` first
consumes as many characters as possible and then gives characters back, so
the dot position `k` is tried from the largest candidate downwards
(`k ≥ 1` because the `+` needs at least one character). -/
def fileBacktrack (l : List Char) : Nat → Option (Nat × String)
  | 0 => none
  | k+1 =>
    (if l.get? (k+1) == some '.' then
      match tryFileExtensions l (k+2) fileExtensions with
      | some extLen => some (k + 2 + extLen, String.mk (l.take (k + 2 + extLen)))
      | none => none
    else none).orElse (fun _ => fileBacktrack l k)

/-- Matcher for the file-path regex
`\b([a-zA-Z0-9_/\-\.]+\.(py|...|jsx))\b` at the start of `l`, with `prev`
the character just before `l`. Returns the matched length and submatch 1
(the whole path). -/
def matchFileAt (prev : Option Char) (l : List Char) : Option (Nat × String) :=
  match l with
  | [] => none
  | c0 :: _ =>
    if wordBoundary prev (some c0) then
      let runLen := (l.takeWhile isFilePathChar).length
      if runLen == 0 then none else fileBacktrack l (runLen - 1)
    else none

/-- Matcher for the function-call regex
`\b([a-zA-Z_][a-zA-Z0-9_]*)\s*\(` at the start of `l`: an identifier
(which the greedy star must take maximally, since a shorter take leaves
an identifier character where `\s*\(` cannot match), optional whitespace,
then an opening parenthesis. Submatch 1 is the identifier. -/
def matchFuncAt (prev : Option Char) (l : List Char) : Option (Nat × String) :=
  match l with
  | [] => none
  | c0 :: t =>
    if (c0.isAlpha || c0 == '_') && wordBoundary prev (some c0) then
      let identLen := 1 + (t.takeWhile isWordChar).length
      let afterIdent := l.drop identLen
      let spaceLen := (afterIdent.takeWhile isGoSpace).length
      match afterIdent.drop spaceLen with
      | '(' :: _ => some (identLen + spaceLen + 1, String.mk (l.take identLen))
      | _ => none
    else none

/-- Digits-with-optional-range step of the line-number regex:
`\d+(?:-\d+)?`. Returns consumed length and the captured text. -/
def parseLineDigits (l : List Char) : Option (Nat × String) :=
  let ds := l.takeWhile Char.isDigit
  if ds.length == 0 then none
  else
    match l.drop ds.length with
    | '-' :: t2 =>
      let ds2 := t2.takeWhile Char.isDigit
      if ds2.length == 0 then some (ds.length, String.mk ds)
      else some (ds.length + 1 + ds2.length, String.mk (ds ++ '-' :: ds2))
    | _ => some (ds.length, String.mk ds)

/-- Whitespace-then-digits step `\s+(\d+(?:-\d+)?)` used after the word
"line"/"lines". -/
def parseSpacesDigits (l : List Char) : Option (Nat × String) :=
  let sp := (l.takeWhile isGoSpace).length
  if sp == 0 then none
  else
    match parseLineDigits (l.drop sp) with
    | some (n, s) => some (sp + n, s)
    | none => none

/-- Matcher for the line-number regex
`(?:lines?|line)\s+(\d+(?:-\d+)?)|:(\d+)` of part_001 line 45. The first
alternative greedily takes the optional "s" and backtracks to drop it; the
second matches a bare colon-number. The returned string is the line
reference the Go code reads out of whichever group matched. -/
def matchLineAt (_prev : Option Char) (l : List Char) : Option (Nat × String) :=
  (if ("line".data).isPrefixOf l then
    let afterLine := l.drop 4
    match afterLine with
    | 's' :: _ =>
      (match parseSpacesDigits (l.drop 5) with
       | some (n, s) => some (5 + n, s)
       | none =>
         match parseSpacesDigits afterLine with
         | some (n, s) => some (4 + n, s)
         | none => none)
    | _ =>
      match parseSpacesDigits afterLine with
      | some (n, s) => some (4 + n, s)
      | none => none
  else none).orElse (fun _ =>
    match l with
    | ':' :: t =>
      let ds := t.takeWhile Char.isDigit
      if ds.length == 0 then none else some (1 + ds.length, String.mk ds)
    | _ => none)

/-- Driver replaying `FindAllStringSubmatch`: `fuel` starts at the length
of the text and every step consumes at least one character, so the fuel
never runs out before the text does. `prev` is the character just before
the current position, used by the word-boundary checks. -/
def findAllAux (matcher : Option Char → List Char → Option (Nat × String)) :
    Nat → Option Char → List Char → List String
  | 0, _, _ => []
  | fuel+1, prev, l =>
    match l with
    | [] => []
    | c :: t =>
      match matcher prev l with
      | some (n, s) =>
        let n1 := max n 1
        s :: findAllAux matcher fuel ((l.take n1).getLast?) (l.drop n1)
      | none => findAllAux matcher fuel (some c) t

/-- All submatches of a pattern in a string, leftmost and
non-overlapping. -/
def findAll (matcher : Option Char → List Char → Option (Nat × String))
    (s : String) : List String :=
  findAllAux matcher s.data.length none s.data

/-- Lowercase map over a string: the ASCII semantics of Go
`strings.ToLower` (Lean core String.toLower computes the same
characterwise map but by byte-position recursion, which the kernel cannot
unfold). -/
def toLowerStr (s : String) : String := String.mk (s.data.map Char.toLower)

/-- Model of `isCommonWord` (part_001 lines 260-268): the candidate is
lowercased with `strings.ToLower` before the stoplist lookup. -/
def isCommonWord (word : String) : Bool :=
  (["if", "for", "while", "do", "then",
    "and", "or", "not", "is", "the",
    "a", "an", "to", "of", "in",
    "on", "at", "by", "from", "with"] : List String).contains (toLowerStr word)

/-- Model of `ContextRequirements` (part_001 lines 20-25); the Go maps
`Functions` and `LineRefs` become insertion-ordered association lists. -/
structure ContextRequirements where
  files : List String
  functions : List (String × String)
  lineRefs : List (String × String)
  hasCodeRefs : Bool
deriving DecidableEq

/-- Insert-or-overwrite on an association list, the update semantics of a
Go map assignment. -/
def assocSet : List (String × String) → String → String → List (String × String)
  | [], k, v => [(k, v)]
  | (k0, v0) :: t, k, v =>
    if k0 = k then (k, v) :: t else (k0, v0) :: assocSet t k v

/-- File-path phase of `AnalyzePromptForReferences` (part_001 lines
59-68): record each matched path once, in order. -/
def analyzeFilesPhase (req : ContextRequirements) (ms : List String) :
    ContextRequirements :=
  ms.foldl
    (fun r filePath =>
      if r.files.contains filePath then r
      else { r with files := r.files ++ [filePath], hasCodeRefs := true })
    req

/-- Function-call phase of `AnalyzePromptForReferences` (part_001 lines
71-81): record each non-stopword identifier with an empty path. -/
def analyzeFuncsPhase (req : ContextRequirements) (ms : List String) :
    ContextRequirements :=
  ms.foldl
    (fun r funcName =>
      if isCommonWord funcName then r
      else { r with functions := assocSet r.functions funcName "", hasCodeRefs := true })
    req

/-- Line-number phase of `AnalyzePromptForReferences` (part_001 lines
84-100): associate each line reference with the most recently matched
file path. -/
def analyzeLinesPhase (req : ContextRequirements) (ms : List String) :
    ContextRequirements :=
  if ms.length > 0 ∧ req.files.length > 0 then
    let lastFile := req.files.getLastD ""
    ms.foldl
      (fun r lineRef =>
        if lineRef ≠ "" then
          { r with lineRefs := assocSet r.lineRefs lastFile lineRef, hasCodeRefs := true }
        else r)
      req
  else req

/-- Keyword list of part_001 line 103. -/
def codeKeywords : List String :=
  ["function", "class", "method", "implementation", "code", "file", "module"]

/-- Substring test on character lists (the semantics of Go
`strings.Contains`). -/
def containsSub (hay needle : List Char) : Bool :=
  needle.isPrefixOf hay ||
    match hay with
    | [] => false
    | _ :: t => containsSub t needle

/-- Substring test on strings. -/
def containsStr (hay needle : String) : Bool := containsSub hay.data needle.data

/-- Keyword phase of `AnalyzePromptForReferences` (part_001 lines
102-110): any case-insensitive keyword occurrence flags the prompt. -/
def analyzeKeywordPhase (req : ContextRequirements) (prompt : String) :
    ContextRequirements :=
  if codeKeywords.any (fun kw => containsStr (toLowerStr prompt) kw) then
    { req with hasCodeRefs := true }
  else req

/-- Model of `AnalyzePromptForReferences` (part_001 lines 50-113). -/
def AnalyzePromptForReferences (prompt : String) : ContextRequirements :=
  let req0 : ContextRequirements :=
    { files := [], functions := [], lineRefs := [], hasCodeRefs := false }
  let req1 := analyzeFilesPhase req0 (findAll matchFileAt prompt)
  let req2 := analyzeFuncsPhase req1 (findAll matchFuncAt prompt)
  let req3 := analyzeLinesPhase req2 (findAll matchLineAt prompt)
  analyzeKeywordPhase req3 prompt

/-- Model of `ContextRequest` (part_001 lines 11-17). -/
structure ContextRequest where
  type : String
  path : String
  function : String
  lines : String
  reason : String
deriving DecidableEq

/-- Model of `ContextResponse` (part_001 lines 28-32). -/
structure ContextResponse where
  status : String
  message : String
  contextRequests : List ContextRequest
deriving DecidableEq

/-- Model of `BuildContextRequest` (part_001 lines 116-155): one
file-content (or file-section, when a line range is known) request per
file, then one function-implementation request per function. -/
def BuildContextRequest (requirements : ContextRequirements) : ContextResponse :=
  let fileRequests := requirements.files.map (fun filePath =>
    match requirements.lineRefs.lookup filePath with
    | some lineRange =>
      { type := "file_section", path := filePath, function := "", lines := lineRange,
        reason := "lines " ++ lineRange ++ " mentioned in prompt" }
    | none =>
      { type := "file_content", path := filePath, function := "", lines := "",
        reason := "file mentioned in prompt" })
  let funcRequests := requirements.functions.map (fun p =>
    { type := "function_implementation", path := p.2, function := p.1, lines := "",
      reason := "function referenced in prompt" })
  { status := "context_needed",
    message := "To provide accurate analysis, I need to see the actual code. Please gather the following context and re-call with gathered_context parameter:",
    contextRequests := fileRequests ++ funcRequests }

/-- One numbered entry of `FormatContextRequestAsText` (part_001 lines
224-236). -/
def formatContextEntry (i : Nat) (req : ContextRequest) : String :=
  "\n" ++ toString (i + 1) ++ ". " ++ req.type ++ "\n"
  ++ (if req.path ≠ "" then "   Path: " ++ req.path ++ "\n" else "")
  ++ (if req.function ≠ "" then "   Function: " ++ req.function ++ "\n" else "")
  ++ (if req.lines ≠ "" then "   Lines: " ++ req.lines ++ "\n" else "")
  ++ "   Reason: " ++ req.reason ++ "\n"

/-- Model of `FormatContextRequestAsText` (part_001 lines 217-247). -/
def FormatContextRequestAsText (response : ContextResponse) : String :=
  response.message ++ "\n\n" ++ "CONTEXT REQUESTS:\n"
  ++ response.contextRequests.enum.foldl (fun acc p => acc ++ formatContextEntry p.1 p.2) ""
  ++ "\n\nTo provide this context, please use the Read tool to gather file contents,"
  ++ " then re-call this tool with the gathered_context parameter containing:"
  ++ "\n\x7b\n"
  ++ "  \"files\": \x7b\"path\": \"content\", ...\x7d,\n"
  ++ "  \"functions\": \x7b\"name\": \"implementation\", ...\x7d,\n"
  ++ "  \"metadata\": \x7b\"key\": \"value\", ...\x7d\n"
  ++ "\x7d\n"

/-- Model of `GatheredContext` (part_001 lines 35-39): the three JSON maps
as insertion-ordered association lists, in the order the decoder yields
them. -/
structure GatheredContext where
  files : List (String × String)
  functions : List (String × String)
  metadata : List (String × String)
deriving DecidableEq

/-- Body built by `EnrichPromptWithContext` (part_001 lines 168-213) once
the JSON has been decoded. -/
def enrichBody (prompt : String) (context : GatheredContext) : String :=
  "# ORIGINAL QUESTION\n\n" ++ prompt ++ "\n\n"
  ++ (if context.files.length > 0 then
        "# RELEVANT CODE CONTEXT\n\n"
        ++ context.files.foldl (fun acc p =>
             acc ++ "## File: " ++ p.1 ++ "\n\n```\n" ++ p.2 ++ "\n```\n\n") ""
      else "")
  ++ (if context.functions.length > 0 then
        "# FUNCTION IMPLEMENTATIONS\n\n"
        ++ context.functions.foldl (fun acc p =>
             acc ++ "## Function: " ++ p.1 ++ "\n\n```\n" ++ p.2 ++ "\n```\n\n") ""
      else "")
  ++ (if context.metadata.length > 0 then
        "# ADDITIONAL CONTEXT\n\n"
        ++ context.metadata.foldl (fun acc p =>
             acc ++ "## " ++ p.1 ++ "\n\n```\n" ++ p.2 ++ "\n```\n\n") ""
      else "")
  ++ "# ANALYSIS REQUEST\n\n"
  ++ "Given the code and context above, please answer the original question:\n\n"
  ++ prompt

/-- Model of `EnrichPromptWithContext` (part_001 lines 158-214),
parameterized by the external JSON decoder (`encoding/json.Unmarshal`):
an empty context string is returned unchanged, a decode failure becomes
the "invalid gathered_context JSON" error. -/
def EnrichPromptWithContext (parse : String → Except String GatheredContext)
    (prompt contextJSON : String) : Except String String :=
  if contextJSON = "" then .ok prompt
  else
    match parse contextJSON with
    | .error e => .error ("invalid gathered_context JSON: " ++ e)
    | .ok context => .ok (enrichBody prompt context)

/-! Full Handle entry points: context-gating pre-pass (phase 1), prompt
enrichment (phase 2), then the provider loop. The pre-pass and enrichment
code is identical in gpt5pro.go lines 100-129 and part_000 lines 49-78. -/

/-- Phase 1 of both Handle variants: when auto-gathering is on and no
context was supplied, a prompt with code references short-circuits into
the formatted context request. -/
def contextGate (prompt : String) (autoGatherContext : Bool) (gatheredContext : String) :
    Option String :=
  if autoGatherContext && gatheredContext == "" then
    let requirements := AnalyzePromptForReferences prompt
    if requirements.hasCodeRefs then
      some (FormatContextRequestAsText (BuildContextRequest requirements))
    else none
  else none

/-- Phase 2 of both Handle variants: enrich the prompt when a context blob
was supplied; a decode error aborts with the "Failed to process
gathered_context" message. -/
def enrichPhase (parse : String → Except String GatheredContext)
    (prompt gatheredContext : String) : Except String String :=
  if gatheredContext ≠ "" then
    match EnrichPromptWithContext parse prompt gatheredContext with
    | .error e => .error ("Failed to process gathered_context: " ++ e)
    | .ok enriched => .ok enriched
  else .ok prompt

/-- Model of the whole `GPT5ProClient.Handle` (gpt5pro.go lines 80-245)
for the Responses-API route: gate, enrich, then the provider loop. On a
short-circuit or enrichment failure no provider request is made and the
session token keeps its prior value. -/
def respHandle (parse : String → Except String GatheredContext)
    (executeFunction : String → String → Except String String)
    (provider : Nat → List RespInputItem → Except String Response)
    (baseURL responseID0 : String) (prompt : String)
    (continueConversation : Bool) (gatheredContext : String)
    (autoGatherContext : Bool) : RespOutcome :=
  match contextGate prompt autoGatherContext gatheredContext with
  | some responseText =>
    { result := NewToolResultText responseText, responseID := responseID0, requests := 0 }
  | none =>
    match enrichPhase parse prompt gatheredContext with
    | .error e =>
      { result := NewToolResultError e, responseID := responseID0, requests := 0 }
    | .ok prompt2 =>
      respHandleCore executeFunction provider baseURL responseID0 continueConversation prompt2

/-- Model of the whole `ChatCompletionsClient.Handle` (part_000 lines
35-169): gate, enrich, then the provider loop. -/
def chatHandle (parse : String → Except String GatheredContext)
    (executeFunction : String → String → Except String String)
    (provider : Nat → List ChatMsg → Except String ChatCompletion)
    (history0 : List ChatMsg) (prompt : String)
    (continueConversation : Bool) (gatheredContext : String)
    (autoGatherContext : Bool) : ChatOutcome :=
  match contextGate prompt autoGatherContext gatheredContext with
  | some responseText =>
    { result := NewToolResultText responseText, conversationHistory := history0, requests := 0 }
  | none =>
    match enrichPhase parse prompt gatheredContext with
    | .error e =>
      { result := NewToolResultError e, conversationHistory := history0, requests := 0 }
    | .ok prompt2 =>
      chatHandleCore executeFunction provider history0 continueConversation prompt2

/-! Concrete fixtures used by witnesses and counterexamples. -/

/-- Executor that always succeeds. -/
def execOk : String → String → Except String String := fun _ _ => .ok "ok"

/-- Response carrying exactly one function-call output item. -/
def respToolCallResponse : Response :=
  { id := "resp-1",
    output := [{ type := "function_call", callID := "call-1", name := "read_file",
                 arguments := "", content := [] }] }

/-- Responses-API provider that always answers with a tool call. -/
def respProviderAllCalls : Nat → List RespInputItem → Except String Response :=
  fun _ _ => .ok respToolCallResponse

/-- Chat message requesting exactly one tool call. -/
def chatToolCallMessage : ChatCompletionMessage :=
  { content := "",
    toolCalls := [{ id := "call-1", function := { name := "read_file", arguments := "" } }] }

/-- Choice wrapping `chatToolCallMessage`. -/
def chatToolCallChoice : ChatChoice := { message := chatToolCallMessage }

/-- Completion whose single choice requests a tool call. -/
def chatToolCallCompletion : ChatCompletion := { choices := [chatToolCallChoice] }

/-- Chat provider that always answers with a tool call. -/
def chatProviderAllCalls : Nat → List ChatMsg → Except String ChatCompletion :=
  fun _ _ => .ok chatToolCallCompletion

/-- Responses-API provider that always fails. -/
def respProviderErr : Nat → List RespInputItem → Except String Response :=
  fun _ _ => .error "boom"

/-- Chat provider that always fails. -/
def chatProviderErr : Nat → List ChatMsg → Except String ChatCompletion :=
  fun _ _ => .error "boom"

/-- Responses-API provider answering with an empty output list. -/
def respProviderEmptyOutput : Nat → List RespInputItem → Except String Response :=
  fun _ _ => .ok { id := "new", output := [] }

/-- Responses-API provider whose initial call succeeds with a tool call
and whose follow-up call fails. -/
def respProviderOkThenErr : Nat → List RespInputItem → Except String Response :=
  fun n _ => if n == 0 then .ok respToolCallResponse else .error "boom2"

/-- Chat provider answering with zero choices. -/
def chatProviderNoChoices : Nat → List ChatMsg → Except String ChatCompletion :=
  fun _ _ => .ok { choices := [] }

/-- Completion whose single choice carries empty content and no tool
calls. -/
def chatEmptyCompletion : ChatCompletion :=
  { choices := [{ message := { content := "", toolCalls := [] } }] }

/-- Chat provider answering with empty text and no tool calls. -/
def chatProviderEmptyText : Nat → List ChatMsg → Except String ChatCompletion :=
  fun _ _ => .ok chatEmptyCompletion

/-- Nonempty prior conversation history. -/
def histFixture : List ChatMsg :=
  [SystemMessage "sys", UserMessage "earlier", AssistantMessage "answer"]

/-- Providers whose every response carries at least one tool call
(Responses-API shape). -/
def respProviderAlwaysToolCalls
    (provider : Nat → List RespInputItem → Except String Response) : Prop :=
  ∀ n input, ∃ r, provider n input = Except.ok r ∧ extractToolCalls r ≠ []

/-- Providers whose every response carries at least one tool call
(chat-completions shape). -/
def chatProviderAlwaysToolCalls
    (provider : Nat → List ChatMsg → Except String ChatCompletion) : Prop :=
  ∀ n input, ∃ k ch rest, provider n input = Except.ok k ∧
    k.choices = ch :: rest ∧ ch.message.toolCalls ≠ []

/-- A stored turn is either not an assistant turn or an assistant turn
carrying no tool calls. -/
def assistantToolCallsEmpty : ChatMsg → Bool
  | .assistant _ toolCalls => toolCalls.isEmpty
  | _ => true

/-- Tool-call id referenced by a stored turn (empty for non-tool
turns). -/
def chatMsgToolCallID : ChatMsg → String
  | .tool toolCallID _ => toolCallID
  | _ => ""

/-- Prompt of the context-gating scenario in the spec. -/
def gateScenarioPrompt : String :=
  "Why does get_tree_state() in tree_publisher.py return empty?"

/-! Helper lemmas. -/

/-- Unfolding of one iteration of the Responses-API loop. -/
theorem respIter_succ (executeFunction : String → String → Except String String)
    (provider : Nat → List RespInputItem → Except String Response)
    (fuel reqs : Nat) (response : Response) (rid : String) :
    respIter executeFunction provider (fuel+1) reqs response rid =
      match extractToolCalls response with
      | [] =>
        if extractTextContent response = "" then
          { result := NewToolResultError "No text content in response",
            responseID := rid, requests := reqs }
        else
          { result := NewToolResultText (extractTextContent response),
            responseID := rid, requests := reqs }
      | _ :: _ =>
        match provider reqs (respCollectToolOutputs executeFunction (extractToolCalls response)) with
        | .error e =>
          { result := NewToolResultError ("OpenAI API error: " ++ e),
            responseID := rid, requests := reqs + 1 }
        | .ok response2 =>
          respIter executeFunction provider fuel (reqs + 1) response2 response2.id := rfl

/-- Unfolding of one iteration of the chat-completions loop. -/
theorem chatIter_succ (executeFunction : String → String → Except String String)
    (provider : Nat → List ChatMsg → Except String ChatCompletion)
    (fuel reqs : Nat) (messages history : List ChatMsg) :
    chatIter executeFunction provider (fuel+1) reqs messages history =
      match provider reqs messages with
      | .error e =>
        { result := NewToolResultError ("Chat Completions API error: " ++ e),
          conversationHistory := history, requests := reqs + 1 }
      | .ok completion =>
        match completion.choices with
        | [] =>
          { result := NewToolResultError "No response from API",
            conversationHistory := history, requests := reqs + 1 }
        | choice :: _ =>
          match choice.message.toolCalls with
          | [] =>
            { result := NewToolResultText choice.message.content,
              conversationHistory := messages ++ [AssistantMessage choice.message.content],
              requests := reqs + 1 }
          | _ :: _ =>
            chatIter executeFunction provider fuel (reqs + 1)
              ((messages ++ [AssistantMessage choice.message.content]) ++
                chatToolMessages executeFunction choice.message.toolCalls)
              history := rfl

/-- A list is a Boolean prefix of itself. -/
theorem isPrefixOf_self (l : List Char) : l.isPrefixOf l = true := by
  induction l with
  | nil => rfl
  | cons c t ih => simp [List.isPrefixOf, ih]

/-- A substring occurrence at any offset makes `containsSub` true. -/
theorem containsSub_append (needle rest : List Char) (h : needle.isPrefixOf rest = true) :
    ∀ pre : List Char, containsSub (pre ++ rest) needle = true := by
  intro pre
  induction pre with
  | nil => rw [List.nil_append, containsSub.eq_def, h, Bool.true_or]
  | cons c p ih =>
    rw [List.cons_append, containsSub.eq_def]
    show (needle.isPrefixOf (c :: (p ++ rest)) || containsSub (p ++ rest) needle) = true
    rw [ih, Bool.or_true]

/-- Appending the needle to any prefix yields a string containing it. -/
theorem containsStr_append (pre needle : String) :
    containsStr (pre ++ needle) needle = true := by
  have hdata : (pre ++ needle).data = pre.data ++ needle.data := by
    cases pre
    cases needle
    rfl
  rw [containsStr, hdata]
  exact containsSub_append _ _ (isPrefixOf_self _) _

/-- Against a provider that always requests a tool call, the Responses
loop exhausts its fuel, ends with the fixed error, and performs one
follow-up request per iteration. -/
theorem respIter_always_maxed (executeFunction : String → String → Except String String)
    (provider : Nat → List RespInputItem → Except String Response)
    (h : respProviderAlwaysToolCalls provider) :
    ∀ fuel reqs response rid, extractToolCalls response ≠ [] →
      (respIter executeFunction provider fuel reqs response rid).result =
        NewToolResultError "Max function call iterations reached"
      ∧ (respIter executeFunction provider fuel reqs response rid).requests = reqs + fuel := by
  intro fuel
  induction fuel with
  | zero => intro reqs response rid _; exact ⟨rfl, rfl⟩
  | succ n ih =>
    intro reqs response rid hne
    rw [respIter_succ]
    cases hxt : extractToolCalls response with
    | nil => exact absurd hxt hne
    | cons tc rest =>
      obtain ⟨r2, hok, hne2⟩ :=
        h reqs (respCollectToolOutputs executeFunction (extractToolCalls response))
      rw [hxt] at hok
      simp only [hok]
      obtain ⟨h1, h2⟩ := ih (reqs + 1) r2 r2.id hne2
      refine ⟨h1, ?_⟩
      rw [h2]
      omega

/-- Against a provider that always requests a tool call, the chat loop
exhausts its fuel, ends with the fixed error, performs one request per
iteration, and leaves the session history untouched. -/
theorem chatIter_always_maxed (executeFunction : String → String → Except String String)
    (provider : Nat → List ChatMsg → Except String ChatCompletion)
    (h : chatProviderAlwaysToolCalls provider) :
    ∀ fuel reqs messages history,
      (chatIter executeFunction provider fuel reqs messages history).result =
        NewToolResultError "Max function call iterations reached"
      ∧ (chatIter executeFunction provider fuel reqs messages history).requests = reqs + fuel
      ∧ (chatIter executeFunction provider fuel reqs messages history).conversationHistory
          = history := by
  intro fuel
  induction fuel with
  | zero => intro reqs messages history; exact ⟨rfl, rfl, rfl⟩
  | succ n ih =>
    intro reqs messages history
    rw [chatIter_succ]
    obtain ⟨k, ch, rest, hok, hch, hne⟩ := h reqs messages
    simp only [hok, hch]
    cases hm : ch.message.toolCalls with
    | nil => exact absurd hm hne
    | cons tc more =>
      simp only [hm]
      obtain ⟨h1, h2, h3⟩ := ih (reqs + 1)
        ((messages ++ [AssistantMessage ch.message.content]) ++
          chatToolMessages executeFunction (tc :: more)) history
      refine ⟨h1, ?_, h3⟩
      rw [h2]
      omega

/-- Every error return of the chat loop leaves the session history at the
value it held when the loop started. -/
theorem chatIter_error_keeps_history
    (executeFunction : String → String → Except String String)
    (provider : Nat → List ChatMsg → Except String ChatCompletion) :
    ∀ fuel reqs messages history,
      (chatIter executeFunction provider fuel reqs messages history).result.isError = true →
      (chatIter executeFunction provider fuel reqs messages history).conversationHistory
        = history := by
  intro fuel
  induction fuel with
  | zero => intro reqs messages history _; rfl
  | succ n ih =>
    intro reqs messages history
    rw [chatIter_succ]
    cases hp : provider reqs messages with
    | error e => intro _; rfl
    | ok completion =>
      cases hc : completion.choices with
      | nil => simp only [hc]; intro _; trivial
      | cons choice more =>
        simp only [hc]
        cases hm : choice.message.toolCalls with
        | nil => simp [hm, NewToolResultText]
        | cons tc more2 =>
          simp only [hm]
          exact ih (reqs + 1) _ history

/-- Tool-result turns are never assistant turns. -/
theorem chatToolMessages_all_plain
    (executeFunction : String → String → Except String String)
    (toolCalls : List ChatToolCall) :
    (chatToolMessages executeFunction toolCalls).all assistantToolCallsEmpty = true := by
  induction toolCalls with
  | nil => rfl
  | cons tc rest ih =>
    simp [chatToolMessages, ToolMessage, assistantToolCallsEmpty, ih]

/-- The chat loop preserves the invariant that no stored assistant turn
carries tool calls: the turns it appends are the plain-text assistant turn
and tool-result turns. -/
theorem chatIter_assistant_plain
    (executeFunction : String → String → Except String String)
    (provider : Nat → List ChatMsg → Except String ChatCompletion) :
    ∀ fuel reqs messages history,
      messages.all assistantToolCallsEmpty = true →
      history.all assistantToolCallsEmpty = true →
      (chatIter executeFunction provider fuel reqs messages history).conversationHistory.all
        assistantToolCallsEmpty = true := by
  intro fuel
  induction fuel with
  | zero => intro reqs messages history _ hh; exact hh
  | succ n ih =>
    intro reqs messages history hm hh
    rw [chatIter_succ]
    cases hp : provider reqs messages with
    | error e => exact hh
    | ok completion =>
      cases hc : completion.choices with
      | nil => simp only [hc]; exact hh
      | cons choice more =>
        simp only [hc]
        have hm2 : (messages ++ [AssistantMessage choice.message.content]).all
            assistantToolCallsEmpty = true := by
          rw [List.all_append, hm]
          rfl
        cases hmt : choice.message.toolCalls with
        | nil => simp only [hmt]; exact hm2
        | cons tc more2 =>
          simp only [hmt]
          apply ih
          · rw [List.all_append, hm2, chatToolMessages_all_plain]
            rfl
          · exact hh

/-- The file-path phase never touches the functions map. -/
theorem analyzeFilesPhase_functions (ms : List String) :
    ∀ req : ContextRequirements, (analyzeFilesPhase req ms).functions = req.functions := by
  induction ms with
  | nil => intro req; rfl
  | cons m t ih =>
    intro req
    have h2 : analyzeFilesPhase req (m :: t) =
        analyzeFilesPhase (if req.files.contains m then req
          else { req with files := req.files ++ [m], hasCodeRefs := true }) t := rfl
    rw [h2, ih]
    split <;> rfl

/-- The inner fold of the line-number phase never touches the functions
map. -/
theorem linesFoldl_functions (lastFile : String) (ms : List String) :
    ∀ req : ContextRequirements,
      (ms.foldl
        (fun r lineRef =>
          if lineRef ≠ "" then
            { r with lineRefs := assocSet r.lineRefs lastFile lineRef, hasCodeRefs := true }
          else r)
        req).functions = req.functions := by
  induction ms with
  | nil => intro req; rfl
  | cons m t ih =>
    intro req
    rw [List.foldl_cons, ih]
    split <;> rfl

/-- The line-number phase never touches the functions map. -/
theorem analyzeLinesPhase_functions (req : ContextRequirements) (ms : List String) :
    (analyzeLinesPhase req ms).functions = req.functions := by
  rw [analyzeLinesPhase]
  by_cases h : ms.length > 0 ∧ req.files.length > 0
  · rw [if_pos h]
    exact linesFoldl_functions _ _ _
  · rw [if_neg h]

/-- The keyword phase never touches the functions map. -/
theorem analyzeKeywordPhase_functions (req : ContextRequirements) (prompt : String) :
    (analyzeKeywordPhase req prompt).functions = req.functions := by
  rw [analyzeKeywordPhase]
  split <;> rfl

/-- Membership after a map update: the new pair or an old one. -/
theorem assocSet_mem (k v : String) :
    ∀ (l : List (String × String)) (p : String × String),
      p ∈ assocSet l k v → p = (k, v) ∨ p ∈ l := by
  intro l
  induction l with
  | nil =>
    intro p hp
    rw [assocSet] at hp
    exact Or.inl (List.mem_singleton.mp hp)
  | cons q t ih =>
    intro p hp
    rw [assocSet] at hp
    by_cases h : q.1 = k
    · rw [if_pos h] at hp
      rcases List.mem_cons.mp hp with h1 | h2
      · exact Or.inl h1
      · exact Or.inr (List.mem_cons_of_mem _ h2)
    · rw [if_neg h] at hp
      rcases List.mem_cons.mp hp with h1 | h2
      · exact Or.inr (h1 ▸ List.mem_cons_self _ _)
      · rcases ih p h2 with h3 | h4
        · exact Or.inl h3
        · exact Or.inr (List.mem_cons_of_mem _ h4)

/-- The function-call phase only records identifiers that are not common
words. -/
theorem analyzeFuncsPhase_invariant (ms : List String) :
    ∀ req : ContextRequirements,
      (∀ p ∈ req.functions, isCommonWord p.1 = false) →
      ∀ p ∈ (analyzeFuncsPhase req ms).functions, isCommonWord p.1 = false := by
  induction ms with
  | nil => intro req h; exact h
  | cons m t ih =>
    intro req h
    have h2 : analyzeFuncsPhase req (m :: t) =
        analyzeFuncsPhase (if isCommonWord m then req
          else { req with functions := assocSet req.functions m "", hasCodeRefs := true })
          t := rfl
    rw [h2]
    apply ih
    by_cases hm : isCommonWord m = true
    · simp only [hm, if_pos]
      exact h
    · have hm2 : isCommonWord m = false := by
        cases hb : isCommonWord m
        · rfl
        · exact absurd hb hm
      rw [hm2]
      simp only [Bool.false_eq_true, if_false]
      intro p hp
      rcases assocSet_mem m "" req.functions p hp with h1 | h2
      · rw [h1]
        exact hm2
      · exact h p h2

/-! Claim theorems. -/

/-- Claim C1 (amended): against a provider whose every response carries a
non-empty tool-call list, both variants terminate with the fixed
"Max function call iterations reached" error after exactly ten loop
iterations; the stateless variant performs exactly 10 provider requests,
while the stateful variant performs 11 — one initial request plus one
follow-up per iteration — so the stateful variant does perform an 11th
request. -/
theorem C1_amended_iteration_bound
    (executeFunction : String → String → Except String String)
    (rprov : Nat → List RespInputItem → Except String Response)
    (cprov : Nat → List ChatMsg → Except String ChatCompletion)
    (hr : respProviderAlwaysToolCalls rprov)
    (hc : chatProviderAlwaysToolCalls cprov)
    (baseURL rid0 : String) (hist0 : List ChatMsg) (cont : Bool) (rprompt cprompt : String) :
    (respHandleCore executeFunction rprov baseURL rid0 cont rprompt).result
        = NewToolResultError "Max function call iterations reached"
    ∧ (respHandleCore executeFunction rprov baseURL rid0 cont rprompt).requests = 11
    ∧ (chatHandleCore executeFunction cprov hist0 cont cprompt).result
        = NewToolResultError "Max function call iterations reached"
    ∧ (chatHandleCore executeFunction cprov hist0 cont cprompt).requests = 10 := by
  obtain ⟨r, hok, hne⟩ := hr 0 [ResponseInputItemParamOfMessage rprompt "user"]
  have hresp : respHandleCore executeFunction rprov baseURL rid0 cont rprompt
      = respIter executeFunction rprov maxIterations 1 r r.id := by
    simp only [respHandleCore, hok]
  obtain ⟨h1, h2⟩ :=
    respIter_always_maxed executeFunction rprov hr maxIterations 1 r r.id hne
  have hchat : chatHandleCore executeFunction cprov hist0 cont cprompt
      = chatIter executeFunction cprov maxIterations 0
          ((if (if cont then hist0 else []) = [] then [SystemMessage buildSystemPrompt]
            else (if cont then hist0 else [])) ++ [UserMessage cprompt])
          (if cont then hist0 else []) := rfl
  obtain ⟨h3, h4, _⟩ :=
    chatIter_always_maxed executeFunction cprov hc maxIterations 0
      ((if (if cont then hist0 else []) = [] then [SystemMessage buildSystemPrompt]
        else (if cont then hist0 else [])) ++ [UserMessage cprompt])
      (if cont then hist0 else [])
  refine ⟨?_, ?_, ?_, ?_⟩
  · rw [hresp]
    exact h1
  · rw [hresp, h2]
    rfl
  · rw [hchat]
    exact h3
  · rw [hchat, h4]
    rfl

/-- Counterexample to claim C1 as stated: a stateful-variant run against a
provider that always requests a tool call performs 11 provider requests —
the claim says no 11th request happens in either variant. -/
theorem C1_counterexample :
    (respHandleCore execOk respProviderAllCalls "" "" true "p").requests = 11
    ∧ (respHandleCore execOk respProviderAllCalls "" "" true "p").result
        = NewToolResultError "Max function call iterations reached" := by
  exact ⟨by decide, by decide⟩

/-- Witness for C1: the amended bound at concrete providers. -/
theorem C1_witness :
    (respHandleCore execOk respProviderAllCalls "" "" true "p").result
        = NewToolResultError "Max function call iterations reached"
    ∧ (respHandleCore execOk respProviderAllCalls "" "" true "p").requests = 11
    ∧ (chatHandleCore execOk chatProviderAllCalls [] true "p").result
        = NewToolResultError "Max function call iterations reached"
    ∧ (chatHandleCore execOk chatProviderAllCalls [] true "p").requests = 10 :=
  C1_amended_iteration_bound execOk respProviderAllCalls chatProviderAllCalls
    (fun _ _ => ⟨respToolCallResponse, rfl, by decide⟩)
    (fun _ _ => ⟨chatToolCallCompletion, chatToolCallChoice, [], rfl, rfl, by decide⟩)
    "" "" [] true "p" "p"

/-- Claim C2 (amended): in the stateless variant with continue=true, every
error-terminating call leaves the message history exactly as it was before
the call; in the stateful variant the token survives a transport failure
of the initial request, but it is updated after every successful provider
response, so errors raised later in the call (empty final text, follow-up
failure, iteration cap) leave a mutated token. -/
theorem C2_amended_session_mutation
    (executeFunction : String → String → Except String String)
    (cprov : Nat → List ChatMsg → Except String ChatCompletion)
    (rprov : Nat → List RespInputItem → Except String Response)
    (baseURL rid0 : String) (hist0 : List ChatMsg) (prompt e : String) :
    ((chatHandleCore executeFunction cprov hist0 true prompt).result.isError = true →
      (chatHandleCore executeFunction cprov hist0 true prompt).conversationHistory = hist0)
    ∧ (rprov 0 [ResponseInputItemParamOfMessage prompt "user"] = Except.error e →
      (respHandleCore executeFunction rprov baseURL rid0 true prompt).responseID = rid0) := by
  constructor
  · have hh : chatHandleCore executeFunction cprov hist0 true prompt
        = chatIter executeFunction cprov maxIterations 0
            ((if hist0 = [] then [SystemMessage buildSystemPrompt] else hist0)
              ++ [UserMessage prompt]) hist0 := rfl
    rw [hh]
    exact chatIter_error_keeps_history executeFunction cprov maxIterations 0 _ hist0
  · intro he
    simp [respHandleCore, he]

/-- Counterexample to claim C2 as stated: a stateful-variant call that
terminates in the "no text content" error nevertheless leaves the
continuation token changed from its pre-call value "old". -/
theorem C2_counterexample :
    (respHandleCore execOk respProviderEmptyOutput "" "old" true "p").result.isError = true
    ∧ (respHandleCore execOk respProviderEmptyOutput "" "old" true "p").responseID ≠ "old" := by
  exact ⟨by decide, by decide⟩

/-- Witness for C2: the amended statement at concrete providers. -/
theorem C2_witness :
    (chatHandleCore execOk chatProviderErr histFixture true "p").conversationHistory = histFixture
    ∧ (respHandleCore execOk respProviderErr "" "old" true "p").responseID = "old" := by
  obtain ⟨h1, h2⟩ := C2_amended_session_mutation execOk chatProviderErr respProviderErr
    "" "old" histFixture "p" "boom"
  exact ⟨h1 (by decide), h2 rfl⟩

/-- Claim C3 (confirmed): for a round with N tool-call requests, both
variants build exactly N result entries, in request order with matching
ids, and an executor failure becomes an "Error: ..." result string instead
of aborting the round. -/
theorem C3_tool_result_correspondence
    (executeFunction : String → String → Except String String)
    (toolCalls : List ToolCall) (chatCalls : List ChatToolCall)
    (msg nm args : String) :
    (respCollectToolOutputs executeFunction toolCalls).length = toolCalls.length
    ∧ (respCollectToolOutputs executeFunction toolCalls).map respInputItemCallID
        = toolCalls.map ToolCall.id
    ∧ toolCalls.all (fun tc =>
        decide (ResponseInputItemParamOfFunctionCallOutput tc.id
          (execResultString executeFunction tc.name tc.arguments)
            ∈ respCollectToolOutputs executeFunction toolCalls)) = true
    ∧ (chatToolMessages executeFunction chatCalls).length = chatCalls.length
    ∧ (chatToolMessages executeFunction chatCalls).map chatMsgToolCallID
        = chatCalls.map ChatToolCall.id
    ∧ chatCalls.all (fun tc =>
        decide (ToolMessage tc.id
          (execResultString executeFunction tc.function.name tc.function.arguments)
            ∈ chatToolMessages executeFunction chatCalls)) = true
    ∧ execResultString (fun _ _ => Except.error msg) nm args = "Error: " ++ msg := by
  refine ⟨?_, ?_, ?_, ?_, ?_, ?_, rfl⟩
  · rw [respCollectToolOutputs, List.length_map]
  · rw [respCollectToolOutputs, List.map_map]
    rfl
  · rw [List.all_eq_true]
    intro tc htc
    rw [decide_eq_true_eq]
    exact List.mem_map_of_mem _ htc
  · rw [chatToolMessages, List.length_map]
  · rw [chatToolMessages, List.map_map]
    rfl
  · rw [List.all_eq_true]
    intro tc htc
    rw [decide_eq_true_eq]
    exact List.mem_map_of_mem _ htc

/-- Claim C4 (amended): when a base-URL override is configured, the
remediation note is appended only when the provider error occurs on the
initial request; an error on a follow-up request inside the loop yields
the plain "OpenAI API error" text without the note. -/
theorem C4_amended_remediation_note
    (executeFunction : String → String → Except String String)
    (rprov : Nat → List RespInputItem → Except String Response)
    (baseURL rid0 : String) (cont : Bool) (prompt e : String)
    (r : Response) (e2 : String) :
    (baseURL ≠ "" → rprov 0 [ResponseInputItemParamOfMessage prompt "user"] = Except.error e →
      (respHandleCore executeFunction rprov baseURL rid0 cont prompt).result
          = NewToolResultError ("API error: " ++ e ++ "\n\n" ++ compatNote)
      ∧ containsStr ("API error: " ++ e ++ "\n\n" ++ compatNote) compatNote = true)
    ∧ (rprov 0 [ResponseInputItemParamOfMessage prompt "user"] = Except.ok r →
      extractToolCalls r ≠ [] →
      rprov 1 (respCollectToolOutputs executeFunction (extractToolCalls r)) = Except.error e2 →
      (respHandleCore executeFunction rprov baseURL rid0 cont prompt).result
          = NewToolResultError ("OpenAI API error: " ++ e2)) := by
  constructor
  · intro hb he
    constructor
    · simp only [respHandleCore, he]
      rw [respInitialErrorText, if_pos hb]
    · exact containsStr_append (("API error: " ++ e) ++ "\n\n") compatNote
  · intro hok hne he2
    have h1 : respHandleCore executeFunction rprov baseURL rid0 cont prompt
        = respIter executeFunction rprov maxIterations 1 r r.id := by
      simp only [respHandleCore, hok]
    rw [h1, show maxIterations = 9 + 1 from rfl, respIter_succ]
    cases hxt : extractToolCalls r with
    | nil => exact absurd hxt hne
    | cons tc rest =>
      rw [hxt] at he2
      simp only [he2]

/-- Counterexample to claim C4 as stated: with a non-empty base URL, a
provider error on the follow-up request produces error text without the
remediation note. -/
theorem C4_counterexample :
    (respHandleCore execOk respProviderOkThenErr
      "https://openrouter.ai/api/v1" "" true "p").result.isError = true
    ∧ (respHandleCore execOk respProviderOkThenErr
        "https://openrouter.ai/api/v1" "" true "p").result.text
        = "OpenAI API error: boom2"
    ∧ containsStr (respHandleCore execOk respProviderOkThenErr
        "https://openrouter.ai/api/v1" "" true "p").result.text
        "COMPATIBILITY NOTE" = false := by
  refine ⟨by decide, by decide, by decide⟩

/-- Witness for C4: the amended statement at concrete providers. -/
theorem C4_witness :
    (respHandleCore execOk respProviderErr "https://openrouter.ai/api/v1" "" true "p").result
        = NewToolResultError ("API error: " ++ "boom" ++ "\n\n" ++ compatNote)
    ∧ containsStr ("API error: " ++ "boom" ++ "\n\n" ++ compatNote) compatNote = true
    ∧ (respHandleCore execOk respProviderOkThenErr "" "" true "p").result
        = NewToolResultError ("OpenAI API error: " ++ "boom2") := by
  obtain ⟨hA, _⟩ := C4_amended_remediation_note execOk respProviderErr
    "https://openrouter.ai/api/v1" "" true "p" "boom" respToolCallResponse "boom2"
  obtain ⟨_, hB⟩ := C4_amended_remediation_note execOk respProviderOkThenErr
    "" "" true "p" "boom" respToolCallResponse "boom2"
  obtain ⟨h1, h2⟩ := hA (by decide) rfl
  exact ⟨h1, h2, hB rfl (by decide) rfl⟩

/-- Claim C5 (amended): on a response with zero tool calls and empty final
text, the stateful variant terminates with the "No text content in
response" error, but the stateless variant returns the empty string as a
successful answer. -/
theorem C5_amended_empty_text
    (executeFunction : String → String → Except String String)
    (rprov : Nat → List RespInputItem → Except String Response)
    (cprov : Nat → List ChatMsg → Except String ChatCompletion)
    (baseURL rid0 : String) (hist0 : List ChatMsg) (cont : Bool) (prompt : String)
    (r : Response) (k : ChatCompletion) (ch : ChatChoice) (rest : List ChatChoice) :
    (rprov 0 [ResponseInputItemParamOfMessage prompt "user"] = Except.ok r →
      extractToolCalls r = [] → extractTextContent r = "" →
      (respHandleCore executeFunction rprov baseURL rid0 cont prompt).result
          = NewToolResultError "No text content in response")
    ∧ ((∀ input, cprov 0 input = Except.ok k) → k.choices = ch :: rest →
      ch.message.toolCalls = [] → ch.message.content = "" →
      (chatHandleCore executeFunction cprov hist0 cont prompt).result.isError = false
      ∧ (chatHandleCore executeFunction cprov hist0 cont prompt).result.text = "") := by
  constructor
  · intro hok hxt htext
    have h1 : respHandleCore executeFunction rprov baseURL rid0 cont prompt
        = respIter executeFunction rprov maxIterations 1 r r.id := by
      simp only [respHandleCore, hok]
    rw [h1, show maxIterations = 9 + 1 from rfl, respIter_succ]
    simp [hxt, htext, NewToolResultError]
  · intro hprov hch hm hcontent
    have h2 : chatHandleCore executeFunction cprov hist0 cont prompt
        = chatIter executeFunction cprov maxIterations 0
            ((if (if cont then hist0 else []) = [] then [SystemMessage buildSystemPrompt]
              else (if cont then hist0 else [])) ++ [UserMessage prompt])
            (if cont then hist0 else []) := rfl
    rw [h2, show maxIterations = 9 + 1 from rfl, chatIter_succ, hprov _]
    simp [hch, hm, hcontent, NewToolResultText]

/-- Counterexample to claim C5 as stated: the stateless variant returns an
empty text as a non-error result instead of failing. -/
theorem C5_counterexample :
    (chatHandleCore execOk chatProviderEmptyText [] true "p").result.isError = false
    ∧ (chatHandleCore execOk chatProviderEmptyText [] true "p").result.text = "" := by
  exact ⟨by decide, by decide⟩

/-- Witness for C5: the amended statement at concrete providers. -/
theorem C5_witness :
    (respHandleCore execOk respProviderEmptyOutput "" "" true "p").result
        = NewToolResultError "No text content in response"
    ∧ (chatHandleCore execOk chatProviderEmptyText [] true "p").result.isError = false
    ∧ (chatHandleCore execOk chatProviderEmptyText [] true "p").result.text = "" := by
  obtain ⟨h1, h2⟩ := C5_amended_empty_text execOk respProviderEmptyOutput chatProviderEmptyText
    "" "" [] true "p" { id := "new", output := [] } chatEmptyCompletion
    { message := { content := "", toolCalls := [] } } []
  obtain ⟨h3, h4⟩ := h2 (fun _ => rfl) rfl rfl rfl
  exact ⟨h1 rfl (by decide) (by decide), h3, h4⟩

set_option maxRecDepth 10000 in
/-- Claim C6 (confirmed): on the scenario prompt with auto_gather_context
on and no gathered context, both variants short-circuit with zero provider
requests, returning the formatted context request, whose entries are
exactly the file_content request for tree_publisher.py and the
function_implementation request for get_tree_state. -/
theorem C6_context_gating_scenario
    (parse : String → Except String GatheredContext)
    (executeFunction : String → String → Except String String)
    (rprov : Nat → List RespInputItem → Except String Response)
    (cprov : Nat → List ChatMsg → Except String ChatCompletion)
    (baseURL rid0 : String) (hist0 : List ChatMsg) (cont : Bool) :
    (respHandle parse executeFunction rprov baseURL rid0
        gateScenarioPrompt cont "" true).requests = 0
    ∧ (respHandle parse executeFunction rprov baseURL rid0
        gateScenarioPrompt cont "" true).result
        = NewToolResultText (FormatContextRequestAsText (BuildContextRequest
            (AnalyzePromptForReferences gateScenarioPrompt)))
    ∧ (chatHandle parse executeFunction cprov hist0
        gateScenarioPrompt cont "" true).requests = 0
    ∧ (chatHandle parse executeFunction cprov hist0
        gateScenarioPrompt cont "" true).result
        = NewToolResultText (FormatContextRequestAsText (BuildContextRequest
            (AnalyzePromptForReferences gateScenarioPrompt)))
    ∧ (BuildContextRequest (AnalyzePromptForReferences gateScenarioPrompt)).contextRequests
        = [{ type := "file_content", path := "tree_publisher.py", function := "", lines := "",
             reason := "file mentioned in prompt" },
           { type := "function_implementation", path := "", function := "get_tree_state",
             lines := "", reason := "function referenced in prompt" }]
    ∧ containsStr (FormatContextRequestAsText (BuildContextRequest
        (AnalyzePromptForReferences gateScenarioPrompt))) "Path: tree_publisher.py" = true
    ∧ containsStr (FormatContextRequestAsText (BuildContextRequest
        (AnalyzePromptForReferences gateScenarioPrompt))) "Function: get_tree_state" = true := by
  have hgate : contextGate gateScenarioPrompt true "" =
      some (FormatContextRequestAsText (BuildContextRequest
        (AnalyzePromptForReferences gateScenarioPrompt))) := rfl
  refine ⟨?_, ?_, ?_, ?_, by decide, by decide, by decide⟩
  · simp only [respHandle, hgate]
  · simp only [respHandle, hgate]
  · simp only [chatHandle, hgate]
  · simp only [chatHandle, hgate]

/-- Counterexample to claim C7 as stated: the prompt "If(x)" records no
function reference at all — "If" is excluded by the stoplist because the
candidate is lowercased before the lookup. -/
theorem C7_counterexample :
    (AnalyzePromptForReferences "If(x)").functions = []
    ∧ isCommonWord "If" = true := by
  exact ⟨by decide, by decide⟩

/-- Claim C7 (amended): the scanner lowercases each candidate identifier
with strings.ToLower before the stoplist lookup, so every case variant of
a stoplist word (such as "If(") is excluded, and every recorded function
name fails the stoplist test. -/
theorem C7_amended_stoplist_lowercased :
    (∀ prompt funcName filePath,
      (funcName, filePath) ∈ (AnalyzePromptForReferences prompt).functions →
      isCommonWord funcName = false)
    ∧ isCommonWord "If" = true ∧ isCommonWord "IF" = true ∧ isCommonWord "if" = true := by
  refine ⟨?_, by decide, by decide, by decide⟩
  intro prompt funcName filePath hmem
  rw [show AnalyzePromptForReferences prompt
      = analyzeKeywordPhase (analyzeLinesPhase (analyzeFuncsPhase
          (analyzeFilesPhase
            { files := [], functions := [], lineRefs := [], hasCodeRefs := false }
            (findAll matchFileAt prompt))
          (findAll matchFuncAt prompt))
          (findAll matchLineAt prompt)) prompt from rfl,
    analyzeKeywordPhase_functions, analyzeLinesPhase_functions] at hmem
  refine analyzeFuncsPhase_invariant _ _ ?_ _ hmem
  rw [analyzeFilesPhase_functions]
  intro p hp
  exact absurd hp (List.not_mem_nil p)

/-- Witness for C7: a recorded identifier is never a stoplist word. -/
theorem C7_witness : isCommonWord "foo" = false :=
  C7_amended_stoplist_lowercased.1 "foo(" "foo" "" (by decide)

/-- Claim C8 (confirmed): enriching a prompt with an empty gathered_context
string is the identity — the prompt is returned unchanged with no error,
whatever the JSON decoder does. -/
theorem C8_enrich_empty_identity (parse : String → Except String GatheredContext)
    (prompt : String) :
    EnrichPromptWithContext parse prompt "" = Except.ok prompt := by
  rw [EnrichPromptWithContext, if_pos rfl]

/-- Claim C9 (confirmed): empty tool-call lists and empty output/choices
collections are handled totally — extraction yields an empty list and
empty text, an empty-output response surfaces as the in-band "No text
content in response" error, and an empty-choices completion surfaces as
the in-band "No response from API" error. -/
theorem C9_empty_tolerance
    (executeFunction : String → String → Except String String)
    (rprov : Nat → List RespInputItem → Except String Response)
    (cprov : Nat → List ChatMsg → Except String ChatCompletion)
    (baseURL rid0 : String) (hist0 : List ChatMsg) (cont : Bool) (prompt rid : String)
    (r : Response) (k : ChatCompletion) :
    extractToolCalls { id := rid, output := [] } = []
    ∧ extractTextContent { id := rid, output := [] } = ""
    ∧ (rprov 0 [ResponseInputItemParamOfMessage prompt "user"] = Except.ok r → r.output = [] →
      (respHandleCore executeFunction rprov baseURL rid0 cont prompt).result
          = NewToolResultError "No text content in response")
    ∧ ((∀ input, cprov 0 input = Except.ok k) → k.choices = [] →
      (chatHandleCore executeFunction cprov hist0 cont prompt).result
          = NewToolResultError "No response from API") := by
  refine ⟨rfl, rfl, ?_, ?_⟩
  · intro hok hout
    cases r with
    | mk rid2 rout =>
      have hout2 : rout = [] := hout
      subst hout2
      have h1 : respHandleCore executeFunction rprov baseURL rid0 cont prompt
          = respIter executeFunction rprov maxIterations 1
              { id := rid2, output := [] } rid2 := by
        simp only [respHandleCore, hok]
      rw [h1, show maxIterations = 9 + 1 from rfl, respIter_succ]
      simp [show extractToolCalls { id := rid2, output := [] } = [] from rfl,
        show extractTextContent { id := rid2, output := [] } = "" from rfl]
  · intro hprov hch
    have h2 : chatHandleCore executeFunction cprov hist0 cont prompt
        = chatIter executeFunction cprov maxIterations 0
            ((if (if cont then hist0 else []) = [] then [SystemMessage buildSystemPrompt]
              else (if cont then hist0 else [])) ++ [UserMessage prompt])
            (if cont then hist0 else []) := rfl
    rw [h2, show maxIterations = 9 + 1 from rfl, chatIter_succ, hprov _]
    simp only [hch]

/-- Witness for C9: the tolerance properties at concrete providers. -/
theorem C9_witness :
    extractToolCalls { id := "x", output := [] } = []
    ∧ extractTextContent { id := "x", output := [] } = ""
    ∧ (respHandleCore execOk respProviderEmptyOutput "" "" true "p").result
        = NewToolResultError "No text content in response"
    ∧ (chatHandleCore execOk chatProviderNoChoices [] true "p").result
        = NewToolResultError "No response from API" := by
  obtain ⟨h1, h2, h3, h4⟩ := C9_empty_tolerance execOk respProviderEmptyOutput
    chatProviderNoChoices "" "" [] true "p" "x" { id := "new", output := [] } { choices := [] }
  exact ⟨h1, h2, h3 rfl rfl, h4 (fun _ => rfl) rfl⟩

/-- Claim C10 (confirmed): every assistant turn the stateless loop stores
carries only text — the tool-call list of a stored assistant turn is
always empty, so the session history saved on success contains no
assistant turn with attached tool calls. -/
theorem C10_assistant_turns_plain
    (executeFunction : String → String → Except String String)
    (cprov : Nat → List ChatMsg → Except String ChatCompletion)
    (hist0 : List ChatMsg) (cont : Bool) (prompt : String)
    (h : hist0.all assistantToolCallsEmpty = true) :
    (chatHandleCore executeFunction cprov hist0 cont prompt).conversationHistory.all
      assistantToolCallsEmpty = true := by
  have h2 : chatHandleCore executeFunction cprov hist0 cont prompt
      = chatIter executeFunction cprov maxIterations 0
          ((if (if cont then hist0 else []) = [] then [SystemMessage buildSystemPrompt]
            else (if cont then hist0 else [])) ++ [UserMessage prompt])
          (if cont then hist0 else []) := rfl
  rw [h2]
  have hh1 : (if cont then hist0 else []).all assistantToolCallsEmpty = true := by
    cases cont
    · rfl
    · exact h
  apply chatIter_assistant_plain
  · rw [List.all_append]
    by_cases hc2 : (if cont then hist0 else []) = []
    · rw [if_pos hc2]
      rfl
    · rw [if_neg hc2, hh1]
      rfl
  · exact hh1

/-- Witness for C10: the stored-turn invariant at a concrete provider and
a nonempty prior history. -/
theorem C10_witness :
    (chatHandleCore execOk chatProviderAllCalls histFixture true "p").conversationHistory.all
      assistantToolCallsEmpty = true :=
  C10_assistant_turns_plain execOk chatProviderAllCalls histFixture true "p" (by decide)

end GPT5ProMCP
